import Mathlib

/-!
Verification of the filename/title normalizer of the `webtoolbox` repository.

The definitions below are a shallow embedding of `get_new_filename`
(`src/fixfiles.py`) and `extract_episode_info` (`src/updatetitle.py`).
Strings are modelled as `List Char`; Python's `os.path.splitext`,
`str.strip`, `str.split`, `str.replace`, `str.count` and the concrete
regular expressions used by the scripts are each translated into
executable Lean functions.  Character classes of the regexes (`\d`, `\s`,
`\w`) and Python's case operations are modelled over the ASCII range,
which is the range exercised by every input in the specification.
Python's `int(...)` — the one operation of the pipeline that can raise —
is modelled as an `Option`-returning parser, so the whole normalizer
returns `Option String` and totality is a provable statement rather than
an assumption.
-/

/-- ASCII part of Python's whitespace class: the characters for which
`str.isspace` holds and which `str.split()` / `str.strip()` and the regex
class `\s` treat as whitespace (codes 9-13, 28-31 and 32). -/
def isPySpace (c : Char) : Bool :=
  c == ' ' || c == '\t' || c == '\n' || c == '\r' ||
  c.toNat == 11 || c.toNat == 12 ||
  c.toNat == 28 || c.toNat == 29 || c.toNat == 30 || c.toNat == 31

/-- Word characters of the regex class `\w` (ASCII range): letters, digits
and the underscore. -/
def isWordChar (c : Char) : Bool :=
  c.isAlpha || c.isDigit || c == '_'

/-- Index of the last occurrence of `ch` in `l`, if any. -/
def rfindIdx (ch : Char) : List Char → Option Nat
  | [] => none
  | c :: rest =>
    match rfindIdx ch rest with
    | some i => some (i + 1)
    | none => if c == ch then some 0 else none

/-- Python's `os.path.splitext` (posix flavour): split off the extension
that starts at the last dot, provided some non-dot character of the final
path component comes before that dot. -/
def splitext (p : List Char) : List Char × List Char :=
  match rfindIdx '.' p with
  | none => (p, [])
  | some d =>
    let start : Nat :=
      match rfindIdx '/' p with
      | none => 0
      | some si => si + 1
    let sepOk : Bool :=
      match rfindIdx '/' p with
      | none => true
      | some si => decide (si < d)
    if sepOk && ((p.drop start).take (d - start)).any (fun c => c != '.') then
      (p.take d, p.drop d)
    else (p, [])

/-- The subtitle-extension set of `get_new_filename` (`fixfiles.py`). -/
def subtitleExts : List (List Char) :=
  [".srt".toList, ".sub".toList, ".smi".toList, ".ssa".toList,
   ".ass".toList, ".vtt".toList, ".idx".toList, ".scc".toList,
   ".ttml".toList, ".dfxp".toList, ".sbv".toList, ".sup".toList]

/-- `ext.lower() in SUBTITLE_EXTENSIONS` from `get_new_filename`. -/
def isSubtitleExt (ext : List Char) : Bool :=
  subtitleExts.contains (ext.map Char.toLower)

/-- One candidate decomposition of the already-clean pattern
`^[^0-9]*[A-Za-z].*?\s\(\d{4}\)\.[^.]+$` of `get_new_filename`
(`fixfiles.py`, line 30): `i` is the index matched by `[A-Za-z]` (no digit
may occur before it), `j` the index matched by `\s`.  The `.*?` gap between
them may not contain a newline (`.` does not match `\n`), while the classes
`[^0-9]`, `\s` and `[^.]` do accept it; `$` also matches just before a
final newline, which for the closing `[^.]+$` piece amounts to: the tail
after the dot is nonempty and contains no dot. -/
def cleanMatchAt (s : List Char) (i j : Nat) : Bool :=
  ((s.take i).all (fun c => !c.isDigit)) &&
  (s.getD i ' ').isAlpha &&
  decide (i < j) &&
  (((s.drop (i + 1)).take (j - (i + 1))).all (fun c => c != '\n')) &&
  isPySpace (s.getD j ' ') &&
  (s.getD (j + 1) ' ' == '(') &&
  (((s.drop (j + 2)).take 4).length == 4) &&
  (((s.drop (j + 2)).take 4).all Char.isDigit) &&
  (s.getD (j + 6) ' ' == ')') &&
  (s.getD (j + 7) ' ' == '.') &&
  (!(s.drop (j + 8)).isEmpty) &&
  ((s.drop (j + 8)).all (fun c => c != '.'))

/-- `re.match(r"^[^0-9]*[A-Za-z].*?\s\(\d{4}\)\.[^.]+$", filename)`:
a match exists iff some decomposition works. -/
def alreadyClean (s : List Char) : Bool :=
  (List.range s.length).any (fun i =>
    (List.range s.length).any (fun j => cleanMatchAt s i j))

/-- Lines 38-39 of `fixfiles.py`: drop a leading two-digit index and its
separator when the name is longer than 3 characters. -/
def stripLeadingIndex (nm : List Char) : List Char :=
  if nm.length > 3 && (nm.getD 0 ' ').isDigit && (nm.getD 1 ' ').isDigit &&
      (nm.getD 2 ' ' == '.' || nm.getD 2 ' ' == ' ' || nm.getD 2 ' ' == '_') then
    nm.drop 3
  else nm

/-- Remainder after the first `)` of the list, if there is one; this is how
far one application of the pattern `\([^)]*\)` reaches past its opening
parenthesis. -/
def afterClose : List Char → Option (List Char)
  | [] => none
  | c :: rest => if c == ')' then some rest else afterClose rest

/-- Fueled scan of `re.sub(r'\([^)]*\)', '', name)`: at each `(` that has a
later `)`, delete through that `)` and resume after it; every other
character is kept.  The fuel only serves structural recursion; it is
instantiated with the list length, which one reading step or one deletion
step (both consume at least one character) can never exhaust. -/
def subParensF : Nat → List Char → List Char
  | 0, l => l
  | _ + 1, [] => []
  | fuel + 1, c :: rest =>
    if c == '(' then
      match afterClose rest with
      | some after => subParensF fuel after
      | none => c :: subParensF fuel rest
    else c :: subParensF fuel rest

/-- `re.sub(r'\([^)]*\)', '', name)` from `fixfiles.py` line 50. -/
def subParens (l : List Char) : List Char := subParensF l.length l

/-- Drop the longest suffix of characters satisfying `p`. -/
def dropTrail (p : Char → Bool) (l : List Char) : List Char :=
  (l.reverse.dropWhile p).reverse

/-- Python `str.strip()` (ASCII whitespace). -/
def pyStrip (l : List Char) : List Char :=
  dropTrail isPySpace (l.dropWhile isPySpace)

/-- `re.sub(r'[._\s]+$', '', base_name)` from `fixfiles.py` line 60: remove
the trailing run of dots, underscores and whitespace (`$` also matching
before a final newline changes nothing, since `\n` is itself in the
class). -/
def dropTrailSeps (l : List Char) : List Char :=
  dropTrail (fun c => c == '.' || c == '_' || isPySpace c) l

/-- Accumulator worker for Python `str.split()` with no argument: split on
runs of whitespace, producing no empty pieces. -/
def wordsAux : List Char → List Char → List (List Char)
  | [], acc => if acc.isEmpty then [] else [acc.reverse]
  | c :: rest, acc =>
    if isPySpace c then
      if acc.isEmpty then wordsAux rest []
      else acc.reverse :: wordsAux rest []
    else wordsAux rest (c :: acc)

/-- Python `name.split()`. -/
def pyWords (l : List Char) : List (List Char) := wordsAux l []

/-- `' '.join(name.split())` from `fixfiles.py` line 65. -/
def joinWords (l : List Char) : List Char :=
  List.intercalate [' '] (pyWords l)

/-- Lines 45-50 of `fixfiles.py`: with unequal parenthesis counts remove
the parenthesis characters themselves (`str.replace` with an empty
replacement deletes every occurrence); with equal counts delete each
`\([^)]*\)` group and strip the result. -/
def parenStep (nm : List Char) : List Char :=
  if nm.count '(' ≠ nm.count ')' then
    (nm.filter (fun c => c != '(')).filter (fun c => c != ')')
  else pyStrip (subParens nm)

/-- One position of `re.search(r'\b(\d{4})\b', name)`: a word boundary,
four digits, and a word boundary again. -/
def yearAt (l : List Char) (p : Nat) : Bool :=
  (p == 0 || !isWordChar (l.getD (p - 1) ' ')) &&
  (((l.drop p).take 4).length == 4) &&
  (((l.drop p).take 4).all Char.isDigit) &&
  (p + 4 == l.length || !isWordChar (l.getD (p + 4) ' '))

/-- `re.search(r'\b(\d{4})\b', name)` returns the leftmost match; this
yields its start position. -/
def findYear (l : List Char) : Option Nat :=
  (List.range l.length).find? (yearAt l)

/-- Value of a digit string, as `int` computes it on digits. -/
def digitsVal (cs : List Char) : Nat :=
  cs.foldl (fun a c => a * 10 + (c.toNat - 48)) 0

/-- Python `int(...)` restricted to the shape it receives here: it succeeds
exactly on nonempty all-digit strings and raises otherwise, which the
embedding records as `none`. -/
def digitsToNat (cs : List Char) : Option Nat :=
  if cs ≠ [] ∧ cs.all Char.isDigit then some (digitsVal cs) else none

/-- The intermediate `name` of `get_new_filename` right after the
parenthesis step (lines 35-50): split off the extension, strip a leading
index, replace underscores by spaces, then apply the parenthesis cleanup. -/
def cleanedName (filename : String) : List Char :=
  parenStep ((stripLeadingIndex (splitext filename.toList).1).map
    (fun c => if c == '_' then ' ' else c))

/-- `get_new_filename` of `src/fixfiles.py`.  The result is `some` of the
returned string; `none` would mark the only conceivable raise site, the
`int(...)` conversion of the matched year group. -/
def get_new_filename (filename : String) : Option String :=
  if isSubtitleExt (splitext filename.toList).2 then some filename
  else if alreadyClean filename.toList then some filename
  else
    match findYear (cleanedName filename) with
    | none => some ⟨joinWords (cleanedName filename) ++ (splitext filename.toList).2⟩
    | some p =>
      match digitsToNat (((cleanedName filename).drop p).take 4) with
      | none => none
      | some y =>
        if 1900 ≤ y ∧ y ≤ 2999 then
          some ⟨joinWords (dropTrailSeps (pyStrip ((cleanedName filename).take p)) ++
            (' ' :: '(' :: (((cleanedName filename).drop p).take 4 ++ [')']))) ++
            (splitext filename.toList).2⟩
        else some ⟨joinWords (cleanedName filename) ++ (splitext filename.toList).2⟩

/-- The two bypasses of `get_new_filename` together: subtitle extension or
already-clean pattern. -/
def isBypassed (s : String) : Bool :=
  isSubtitleExt (splitext s.toList).2 || alreadyClean s.toList

/-- Whether a standalone 4-digit token with value in 1900-2999 occurs
somewhere in the list (the shape the normalizer treats as a year). -/
def hasStandaloneYear (l : List Char) : Bool :=
  (List.range l.length).any (fun p =>
    yearAt l p && decide (1900 ≤ digitsVal ((l.drop p).take 4)) &&
      decide (digitsVal ((l.drop p).take 4) ≤ 2999))

/-- Whether `needle` starts `hay`. -/
def listStartsWith : List Char → List Char → Bool
  | [], _ => true
  | _ :: _, [] => false
  | a :: as, b :: bs => a == b && listStartsWith as bs

/-- Whether `needle` occurs contiguously inside `hay`. -/
def containsList (needle : List Char) : List Char → Bool
  | [] => needle.isEmpty
  | c :: rest => listStartsWith needle (c :: rest) || containsList needle rest

example : splitext "a.b.c".toList = ("a.b".toList, ".c".toList) := by decide
example : splitext ".bashrc".toList = (".bashrc".toList, ([] : List Char)) := by decide
example : splitext "movie.SRT".toList = ("movie".toList, ".SRT".toList) := by decide
example : isSubtitleExt ".SRT".toList = true := by decide
example : isSubtitleExt ".mkv".toList = false := by decide

example : get_new_filename "2021.mkv" = some "(2021).mkv" := by decide
example : get_new_filename "(2021).mkv" = some ".mkv" := by decide
example : get_new_filename "The.Movie.2021.1080p.mkv" = some "The.Movie (2021).mkv" := by decide
example : get_new_filename "The Movie (2021).mkv" = some "The Movie (2021).mkv" := by decide
example : get_new_filename "movie.srt" = some "movie.srt" := by decide
example : get_new_filename "Movie (2021.mkv" = some "Movie (2021).mkv" := by decide
example : get_new_filename "Movie 1080p.mkv" = some "Movie 1080p.mkv" := by decide
example : get_new_filename "12 Monkeys (1995).mkv" = some "Monkeys.mkv" := by decide
example : get_new_filename "Movie (2021) 1080p.mkv" = some "Movie 1080p.mkv" := by decide
example : get_new_filename "2(x)021 (2021).mkv" = some "(2021).mkv" := by decide
example : get_new_filename "1234 2021.mkv" = some "1234 2021.mkv" := by decide
example : get_new_filename "03.The Movie.mkv" = some "The Movie.mkv" := by decide
example : get_new_filename "My_Show_Name_2019.mp4" = some "My Show Name (2019).mp4" := by decide
example : get_new_filename "The.Movie.2021.mkv" = some "The.Movie (2021).mkv" := by decide
example : get_new_filename "Movie.2021.1080p.BluRay.mkv" = some "Movie (2021).mkv" := by decide
example : get_new_filename "Movie 2021.mkv" = some "Movie (2021).mkv" := by decide
example : get_new_filename "" = some "" := by decide
example : alreadyClean "The.Movie (2021).mkv".toList = true := by decide
example : isBypassed "1234 2021.mkv" = false := by decide

/-- Final path component: everything after the last `/`. -/
def pathName (l : List Char) : List Char :=
  match rfindIdx '/' l with
  | none => l
  | some i => l.drop (i + 1)

/-- `pathlib.Path(...).stem`: the final component without its last suffix;
a suffix needs its dot strictly inside the name (neither first nor last
character). -/
def pathStem (l : List Char) : List Char :=
  match rfindIdx '.' (pathName l) with
  | none => pathName l
  | some i =>
    if 0 < i ∧ i < (pathName l).length - 1 then (pathName l).take i
    else pathName l

/-- Character of `s` at index `i`, with a space (which no branch of the
episode patterns accepts) standing in for out-of-range reads. -/
def chAt (s : List Char) (i : Nat) : Char := s.getD i ' '

/-- The episode-number group `(\d{1,2})` starting at `q`: greedy, so two
digits when available, else one, else no match. -/
def epDigits (s : List Char) (q : Nat) : Option (List Char) :=
  if (chAt s q).isDigit then
    if (chAt s (q + 1)).isDigit then some [chAt s q, chAt s (q + 1)]
    else some [chAt s q]
  else none

/-- One position of `re.search(r'[Ss](\d{1,2})[Ee](\d{1,2})', filename)`
(`updatetitle.py` line 73): the greedy two-digit season is tried first;
its fallback to one digit needs `[Ee]` right after that digit, so the two
arms are mutually exclusive and sequential testing equals regex
backtracking. -/
def seAt (s : List Char) (p : Nat) : Option (List Char × List Char) :=
  if chAt s p == 'S' || chAt s p == 's' then
    if (chAt s (p + 1)).isDigit && (chAt s (p + 2)).isDigit &&
        (chAt s (p + 3) == 'E' || chAt s (p + 3) == 'e') then
      (epDigits s (p + 4)).map (fun e => ([chAt s (p + 1), chAt s (p + 2)], e))
    else if (chAt s (p + 1)).isDigit &&
        (chAt s (p + 2) == 'E' || chAt s (p + 2) == 'e') then
      (epDigits s (p + 3)).map (fun e => ([chAt s (p + 1)], e))
    else none
  else none

/-- One position of `re.search(r'(\d{1,2})x(\d{1,2})', filename)`
(`updatetitle.py` line 74); the literal `x` is case-sensitive. -/
def altAt (s : List Char) (p : Nat) : Option (List Char × List Char) :=
  if (chAt s p).isDigit && (chAt s (p + 1)).isDigit && chAt s (p + 2) == 'x' then
    (epDigits s (p + 3)).map (fun e => ([chAt s p, chAt s (p + 1)], e))
  else if (chAt s p).isDigit && chAt s (p + 1) == 'x' then
    (epDigits s (p + 2)).map (fun e => ([chAt s p], e))
  else none

/-- Leftmost match of the `S..E..` pattern: season and episode digit
groups. -/
def findSE (s : List Char) : Option (List Char × List Char) :=
  (List.range s.length).findSome? (seAt s)

/-- Leftmost match of the `..x..` pattern. -/
def findAlt (s : List Char) : Option (List Char × List Char) :=
  (List.range s.length).findSome? (altAt s)

/-- `str(int(group)).zfill(2)`: the numeric value re-rendered and padded to
two characters. -/
def zfill2Val (ds : List Char) : List Char :=
  List.replicate (2 - (Nat.repr (digitsVal ds)).toList.length) '0' ++
    (Nat.repr (digitsVal ds)).toList

/-- The literal separator `" - "` of `updatetitle.py` line 89. -/
def sepDash : List Char := [' ', '-', ' ']

/-- Fueled worker for Python `str.split(" - ")`: leftmost, non-overlapping;
fuel `length + 1` cannot run out since every step consumes a character. -/
def splitDashF : Nat → List Char → List Char → List (List Char)
  | 0, l, acc => [acc.reverse ++ l]
  | _ + 1, [], acc => [acc.reverse]
  | fuel + 1, c :: rest, acc =>
    if listStartsWith sepDash (c :: rest) then
      acc.reverse :: splitDashF fuel ((c :: rest).drop 3) []
    else splitDashF fuel rest (c :: acc)

/-- Python `filename.split(" - ")`. -/
def splitOnDash (l : List Char) : List (List Char) :=
  splitDashF (l.length + 1) l []

/-- Lines 78-87 of `updatetitle.py`: the `S..E..` pattern is tried first
and the `..x..` pattern only when it found nothing; both groups are
zero-padded through `str(int(..)).zfill(2)`. -/
def seasonEpisode (fn : List Char) : String × String :=
  match findSE fn with
  | some ab => (⟨zfill2Val ab.1⟩, ⟨zfill2Val ab.2⟩)
  | none =>
    match findAlt fn with
    | some ab => (⟨zfill2Val ab.1⟩, ⟨zfill2Val ab.2⟩)
    | none => ("", "")

/-- Lines 89-91 of `updatetitle.py`: the stem is split on `" - "` and only
with more than two parts is the last one (stripped) the episode title. -/
def episodeTitle (fn : List Char) : String :=
  if (splitOnDash fn).length > 2 then ⟨pyStrip ((splitOnDash fn).getLastD [])⟩
  else ""

/-- `extract_episode_info` of `src/updatetitle.py`, applied to the stem of
the given path as the source does. -/
def extract_episode_info (path : String) : String × String × String :=
  ((seasonEpisode (pathStem path.toList)).1,
   (seasonEpisode (pathStem path.toList)).2,
   episodeTitle (pathStem path.toList))

example : extract_episode_info "Show - S02E05 - The Return.mkv" =
    ("02", "05", "The Return") := by decide
example : extract_episode_info "Show 3x04 S01E02.mkv" = ("01", "02", "") := by decide
example : extract_episode_info "Plain file.mkv" = ("", "", "") := by decide
example : extract_episode_info "Show 3x4.mkv" = ("03", "04", "") := by decide

theorem digitsToNat_eq_some {cs : List Char} (h1 : cs.all Char.isDigit = true)
    (h2 : cs ≠ []) : digitsToNat cs = some (digitsVal cs) := by
  simp [digitsToNat, h1, h2]

theorem bypassed_eq_self {t : String} (h : isBypassed t = true) :
    get_new_filename t = some t := by
  unfold get_new_filename
  cases hs : isSubtitleExt (splitext t.toList).2 with
  | true => simp
  | false =>
    have hc : alreadyClean t.toList = true := by
      unfold isBypassed at h
      rw [hs] at h
      simpa using h
    simp [show alreadyClean t.data = true from hc]

theorem filter_paren_pair (l : List Char) :
    (l.filter (fun c => c != '(')).filter (fun c => c != ')') =
    l.filter (fun c => !(c == '(' || c == ')')) := by
  induction l with
  | nil => rfl
  | cons c t ih =>
    by_cases h1 : c = '('
    · subst h1; simpa using ih
    · by_cases h2 : c = ')'
      · subst h2; simpa using ih
      · simp [List.filter_cons, h1, h2, ih]

/-- Claim C1 (counterexample): the normalizer is not idempotent.  On
`"2021.mkv"` the first pass yields `"(2021).mkv"`, whose second pass
deletes the now-parenthesized year as a balanced group and returns
`".mkv"`. -/
theorem normalize_not_idempotent :
    (get_new_filename "2021.mkv").bind get_new_filename ≠
      get_new_filename "2021.mkv" := by decide

/-- Claim C1 (amended): the normalizer is idempotent on every input whose
normalized output is itself accepted by one of the two bypasses (subtitle
extension or the already-clean pattern); such an output is a fixed point,
so a second application changes nothing. -/
theorem normalize_idempotent_on_bypassed (s t : String)
    (h1 : get_new_filename s = some t) (h2 : isBypassed t = true) :
    (get_new_filename s).bind get_new_filename = get_new_filename s := by
  rw [h1]
  show get_new_filename t = some t
  exact bypassed_eq_self h2

theorem normalize_idempotent_on_bypassed_witness :
    (get_new_filename "The.Movie.2021.mkv").bind get_new_filename =
      get_new_filename "The.Movie.2021.mkv" :=
  normalize_idempotent_on_bypassed "The.Movie.2021.mkv" "The.Movie (2021).mkv"
    (by decide) (by decide)

/-- Claim C2 (counterexample): `get_new_filename` has no quality-tag
removal step.  The input `"Movie 1080p.mkv"` is caught by neither bypass,
yet the token `1080p` survives in the output unchanged. -/
theorem quality_tag_survives :
    isBypassed "Movie 1080p.mkv" = false ∧
    get_new_filename "Movie 1080p.mkv" = some "Movie 1080p.mkv" ∧
    containsList "1080p".toList "Movie 1080p.mkv".toList = true := by decide

/-- Claim C2 (amended): `get_new_filename` contains no quality-tag removal
step; a quality token before (or without) a detected year persists, and
tokens after a detected year disappear only because everything after the
year is truncated.  (The tag-removing regex of the specification lives in
`clean_folder_name` of `fetchart.py`, a different routine.) -/
theorem quality_tags_only_truncated :
    get_new_filename "Movie 1080p.mkv" = some "Movie 1080p.mkv" ∧
    get_new_filename "Movie.2021.1080p.BluRay.mkv" = some "Movie (2021).mkv" := by
  decide

/-- Claim C3 (counterexample): on `"The.Movie.2021.1080p.mkv"` the
normalizer returns `"The.Movie (2021).mkv"`, not the specified
`"The Movie (2021).mkv"`: only underscores are replaced by spaces, dots
between title words are kept. -/
theorem year_example_counterexample :
    get_new_filename "The.Movie.2021.1080p.mkv" = some "The.Movie (2021).mkv" ∧
    ("The.Movie (2021).mkv" : String) ≠ "The Movie (2021).mkv" := by decide

/-- Claim C3 (amended): `get_new_filename "The.Movie.2021.1080p.mkv"`
returns exactly `"The.Movie (2021).mkv"`: the year is parenthesized, the
quality tag is dropped by post-year truncation, the extension is kept, and
the dots of the title remain. -/
theorem year_example_actual :
    get_new_filename "The.Movie.2021.1080p.mkv" = some "The.Movie (2021).mkv" := by
  decide

/-- Claim C4 (confirmed): any filename matched by the already-clean pattern
`^[^0-9]*[A-Za-z].*?\s\(\d{4}\)\.[^.]+$` is returned unchanged. -/
theorem already_clean_bypass_unchanged (s : String)
    (h : alreadyClean s.toList = true) : get_new_filename s = some s :=
  bypassed_eq_self (by simp only [isBypassed, Bool.or_eq_true]; exact Or.inr h)

theorem already_clean_bypass_witness :
    alreadyClean "The Movie (2021).mkv".toList = true ∧
    get_new_filename "The Movie (2021).mkv" = some "The Movie (2021).mkv" :=
  ⟨by decide, already_clean_bypass_unchanged "The Movie (2021).mkv" (by decide)⟩

/-- Claim C5 (confirmed): `get_new_filename` is total: on every input
string (the empty string and malformed input included) it produces a
string, and the one fallible operation of the pipeline — `int(...)` on the
matched year group, modelled by `digitsToNat` — never fails, because the
year scan only ever matches four digit characters. -/
theorem get_new_filename_total (s : String) : (get_new_filename s).isSome = true := by
  unfold get_new_filename
  cases hs : isSubtitleExt (splitext s.toList).2 with
  | true => simp
  | false =>
    cases hc : alreadyClean s.toList with
    | true => simp
    | false =>
      simp only [Bool.false_eq_true, if_false]
      cases hy : findYear (cleanedName s) with
      | none => simp
      | some p =>
        have hya : yearAt (cleanedName s) p = true := List.find?_some hy
        simp only [yearAt, Bool.and_eq_true, beq_iff_eq] at hya
        have hne : ((cleanedName s).drop p).take 4 ≠ [] := by
          intro hnil
          have hlen := hya.1.1.2
          rw [hnil] at hlen
          simp at hlen
        have hd := digitsToNat_eq_some hya.1.2 hne
        dsimp only
        rw [hd]
        dsimp only
        split <;> simp

/-- Claim C6 (counterexample): containing an in-range standalone 4-digit
token is not enough.  In `"1234 2021.mkv"` the token `2021` is standalone
and in range, the input passes neither bypass, yet no year formatting
happens: the search takes the leftmost standalone token `1234`, its value
fails the range test, and the code never looks further. -/
theorem year_detection_counterexample :
    isBypassed "1234 2021.mkv" = false ∧
    hasStandaloneYear (cleanedName "1234 2021.mkv") = true ∧
    get_new_filename "1234 2021.mkv" = some "1234 2021.mkv" ∧
    ("1234 2021.mkv" : String) ≠ "1234 (2021).mkv" := by decide

/-- Claim C6 (amended): for every non-bypassed input, when the leftmost
standalone 4-digit token of the cleaned name parses to a value in
1900-2999, the result is the title before that token — stripped of
trailing separator and space characters — followed by the parenthesized
year digits and the original extension (with the final whitespace
collapse of the pipeline applied). -/
theorem year_detection_leftmost (s : String) (p y : Nat)
    (h1 : isSubtitleExt (splitext s.toList).2 = false)
    (h2 : alreadyClean s.toList = false)
    (h3 : findYear (cleanedName s) = some p)
    (h4 : digitsToNat (((cleanedName s).drop p).take 4) = some y)
    (h5 : 1900 ≤ y) (h6 : y ≤ 2999) :
    get_new_filename s =
      some ⟨joinWords (dropTrailSeps (pyStrip ((cleanedName s).take p)) ++
        (' ' :: '(' :: (((cleanedName s).drop p).take 4 ++ [')']))) ++
        (splitext s.toList).2⟩ := by
  unfold get_new_filename
  rw [h1, h2]
  simp only [Bool.false_eq_true, if_false]
  rw [h3]
  dsimp only
  rw [h4]
  dsimp only
  rw [if_pos ⟨h5, h6⟩]

theorem year_detection_leftmost_witness :
    get_new_filename "Movie 2021.mkv" = some "Movie (2021).mkv" :=
  (year_detection_leftmost "Movie 2021.mkv" 6 2021 (by decide) (by decide)
    (by decide) (by decide) (by decide) (by decide)).trans (by decide)

/-- Claim C7 (confirmed): the parenthesis policy of the normalizer.  With
unequal `(`/`)` counts every parenthesis character is stripped and the
content kept; with equal counts every `\([^)]*\)` group is deleted (and
the result stripped) before year detection; and the malformed input
`"Movie (2021.mkv"` indeed normalizes to `"Movie (2021).mkv"`. -/
theorem paren_cleanup_policy :
    (∀ nm : List Char, nm.count '(' ≠ nm.count ')' →
      parenStep nm = nm.filter (fun c => !(c == '(' || c == ')'))) ∧
    (∀ nm : List Char, nm.count '(' = nm.count ')' →
      parenStep nm = pyStrip (subParens nm)) ∧
    get_new_filename "Movie (2021.mkv" = some "Movie (2021).mkv" := by
  refine ⟨fun nm h => ?_, fun nm h => ?_, by decide⟩
  · rw [parenStep, if_pos h, filter_paren_pair]
  · rw [parenStep, if_neg (not_not_intro h)]

theorem paren_cleanup_policy_witness :
    parenStep "a (".toList = "a ".toList ∧ parenStep "a (x)".toList = "a".toList :=
  ⟨(paren_cleanup_policy.1 "a (".toList (by decide)).trans (by decide),
   (paren_cleanup_policy.2.1 "a (x)".toList (by decide)).trans (by decide)⟩

/-- Claim C8 (confirmed): a filename whose extension is, case-insensitively,
one of the twelve subtitle extensions is returned unchanged, before any
other processing. -/
theorem subtitle_bypass_unchanged (s : String)
    (h : isSubtitleExt (splitext s.toList).2 = true) :
    get_new_filename s = some s :=
  bypassed_eq_self (by simp only [isBypassed, Bool.or_eq_true]; exact Or.inl h)

theorem subtitle_bypass_witness :
    isSubtitleExt (splitext "movie.srt".toList).2 = true ∧
    get_new_filename "movie.srt" = some "movie.srt" :=
  ⟨by decide, subtitle_bypass_unchanged "movie.srt" (by decide)⟩

/-- Claim C9 (confirmed): `extract_episode_info` finds `S<1-2 digits>
E<1-2 digits>` case-insensitively (the `x`-form only when that is absent,
as the priority example with both patterns shows), zero-pads both numbers
to two digits, takes the last `" - "` segment as title only with more than
two segments, returns empty fields when a pattern is absent, and on
`"Show - S02E05 - The Return.mkv"` yields season `02`, episode `05`,
title `The Return`. -/
theorem episode_info_extraction :
    extract_episode_info "Show - S02E05 - The Return.mkv" =
      ("02", "05", "The Return") ∧
    extract_episode_info "Show 3x04 S01E02.mkv" = ("01", "02", "") ∧
    (∀ p : String, findSE (pathStem p.toList) = none →
      findAlt (pathStem p.toList) = none →
      (extract_episode_info p).1 = "" ∧ (extract_episode_info p).2.1 = "") ∧
    (∀ p : String, (splitOnDash (pathStem p.toList)).length ≤ 2 →
      (extract_episode_info p).2.2 = "") := by
  refine ⟨by decide, by decide, fun p h1 h2 => ?_, fun p h => ?_⟩
  · have h1' : findSE (pathStem p.data) = none := h1
    have h2' : findAlt (pathStem p.data) = none := h2
    constructor <;> simp [extract_episode_info, seasonEpisode, h1', h2']
  · simp only [extract_episode_info, episodeTitle]
    rw [if_neg (by omega)]

theorem episode_info_extraction_witness :
    (extract_episode_info "Plain file.mkv").1 = "" ∧
    (extract_episode_info "Plain file.mkv").2.2 = "" :=
  ⟨(episode_info_extraction.2.2.1 "Plain file.mkv" (by decide) (by decide)).1,
   episode_info_extraction.2.2.2 "Plain file.mkv" (by decide)⟩

/-- Claim C10 (counterexample): removing a balanced group can join the
digits around it into a fresh standalone year.  In `"2(x)021 (2021).mkv"`
the only standalone 4-digit token sits inside the balanced group
`"(2021)"` (position 9 of the filename), neither bypass fires and the
parenthesis counts match, yet deleting the groups turns `2(x)021` into
`2021`, which the year step then formats: the output `"(2021).mkv"` does
contain a year. -/
theorem year_in_parens_counterexample :
    isBypassed "2(x)021 (2021).mkv" = false ∧
    "2(x)021 (2021)".toList.count '(' = "2(x)021 (2021)".toList.count ')' ∧
    (List.range "2(x)021 (2021).mkv".toList.length).filter
      (fun p => yearAt "2(x)021 (2021).mkv".toList p) = [9] ∧
    get_new_filename "2(x)021 (2021).mkv" = some "(2021).mkv" ∧
    hasStandaloneYear "(2021).mkv".toList = true := by decide

/-- Claim C10 (amended): when the cleaned name left by the parenthesis step
contains no reassembled standalone 4-digit token, the year of a balanced
group is removed together with its group and the output contains no year;
in particular this holds for both inputs named by the claim,
`"Movie (2021) 1080p.mkv"` and `"12 Monkeys (1995).mkv"`. -/
theorem year_in_parens_removed_examples :
    get_new_filename "Movie (2021) 1080p.mkv" = some "Movie 1080p.mkv" ∧
    hasStandaloneYear "Movie 1080p.mkv".toList = false ∧
    get_new_filename "12 Monkeys (1995).mkv" = some "Monkeys.mkv" ∧
    hasStandaloneYear "Monkeys.mkv".toList = false := by decide
